import Mathlib

/-!
Verification of the job orchestration core of the S3APIconnection repository.

The development shallowly embeds:
  * `src/utils/job_manager.py` — the persistent job store (`JobManager`);
  * `src/core/workflow.py` — the bounded Plan → Code → Test retry loop
    (`CSVConversionWorkflow.execute_conversion_job`);
  * `src/core/workflow_executor.py` — the worker-pool counters
    (`WorkflowExecutorService`).

Python dictionaries are modelled as association lists preserving insertion
order; `datetime.now(timezone.utc)` values are modelled as natural-number
timestamps passed explicitly; the success or failure of a disk write is
modelled as an explicit boolean parameter.
-/

namespace S3Api

/-- Association-list lookup, first matching key wins (Python `d.get(k)` /
`d[k]`; the model keeps keys unique, as Python dicts do). -/
def alookup {κ α : Type} [DecidableEq κ] : List (κ × α) → κ → Option α
  | [], _ => none
  | (k, v) :: rest, key => if k = key then some v else alookup rest key

/-- Association-list upsert (Python `d[k] = v`): replaces the value at an
existing key in place, otherwise appends the new binding at the end —
exactly Python dict insertion-order semantics. -/
def aset {κ α : Type} [DecidableEq κ] : List (κ × α) → κ → α → List (κ × α)
  | [], key, v => [(key, v)]
  | (k, w) :: rest, key, v =>
      if k = key then (key, v) :: rest else (k, w) :: aset rest key v

/-- Association-list removal (Python `del d[k]`): drops the first binding of
the key. -/
def aerase {κ α : Type} [DecidableEq κ] : List (κ × α) → κ → List (κ × α)
  | [], _ => []
  | (k, w) :: rest, key => if k = key then rest else (k, w) :: aerase rest key

/-- Python `d.update(u)`: key-wise upsert of every binding of `u` into `d`,
in order. -/
def dict_update {κ α : Type} [DecidableEq κ]
    (d u : List (κ × α)) : List (κ × α) :=
  u.foldl (fun acc kv => aset acc kv.1 kv.2) d

/-- `JobStatus` enum from `src/models/schemas.py` lines 17-28. -/
inductive JobStatus : Type
  | pending | initializing | uploading | processing
  | planning | coding | testing | completed | failed
deriving DecidableEq

/-- The terminal-status test used by `update_job_status` (line 275) and
`cleanup_completed_jobs` (line 401):
`status in [JobStatus.COMPLETED, JobStatus.FAILED]`. -/
def JobStatus.isTerminal : JobStatus → Bool
  | .completed => true
  | .failed => true
  | _ => false

/-- Heterogeneous values stored in `progress_details` dicts (strings and
numbers are the value shapes the code stores there). -/
inductive PVal : Type
  | s (v : String)
  | n (v : Int)
deriving DecidableEq

/-- One entry of a job's `agent_results` list, as built by
`add_agent_result` (job_manager.py lines 300-306).  `execution_time` is a
float in Python; only its presence matters to the claims, so it is modelled
as a natural number of milliseconds. -/
structure AgentResult : Type where
  agent_name : String
  success : Bool
  output : Option String
  error : Option String
  execution_time : Option Nat
deriving DecidableEq

/-- A job record, with the fields initialised by `create_job`
(job_manager.py lines 89-108).  `mode` is stored as the enum's string value
(`"training"` / `"inference"`), exactly as the Python code stores
`mode.value` and later compares `job["mode"] == OperationMode.TRAINING.value`.
The `completed_at` key is absent until the first terminal transition of a
training job; an absent key is modelled as `none`. -/
structure Job : Type where
  job_id : String
  status : JobStatus
  input_file : String
  expected_output_file : Option String
  description : Option String
  general_instructions : Option String
  column_instructions : Option (List (String × String))
  client_id : String
  mode : String
  created_at : Nat
  updated_at : Nat
  completed_at : Option Nat
  current_step : Option String
  progress_details : List (String × PVal)
  error_message : Option String
  generated_script : Option String
  generated_script_path : Option String
  test_results : Option (List (String × PVal))
  agent_results : List AgentResult
deriving DecidableEq

/-- The in-memory jobs dict `self._jobs`. -/
abbrev Store : Type := List (String × Job)

/-- State of a `JobManager`: the in-memory dict plus the durable copy in
`temp/jobs.json`. -/
structure MgrState : Type where
  mem : Store
  disk : Store
deriving DecidableEq

/-- `_save_jobs` (job_manager.py lines 49-70): serialises the whole
in-memory dict to `temp/jobs.json`.  Any exception during the write is
caught and only logged (lines 69-70), so the call returns normally whether
or not the write landed; `persistOk` says whether it did. -/
def save_jobs (st : MgrState) (persistOk : Bool) : MgrState :=
  if persistOk then { st with disk := st.mem } else st

/-- `create_job` (job_manager.py lines 72-113).  `gen_client_id` stands for
the `uuid4()` drawn when no client id is supplied; `now` stands for the
`datetime.now(timezone.utc)` calls.  The new record is stored with
`self._jobs[job_id] = job_data` unconditionally — there is no check for an
existing record under the same id. -/
def create_job (st : MgrState) (job_id : String) (input_file : String)
    (expected_output_file description general_instructions : Option String)
    (column_instructions : Option (List (String × String)))
    (client_id : Option String) (mode : String) (gen_client_id : String)
    (now : Nat) (persistOk : Bool) : MgrState × Job :=
  let cid := client_id.getD gen_client_id
  let job : Job :=
    { job_id := job_id
      status := .pending
      input_file := input_file
      expected_output_file := expected_output_file
      description := description
      general_instructions := general_instructions
      column_instructions := column_instructions
      client_id := cid
      mode := mode
      created_at := now
      updated_at := now
      completed_at := none
      current_step := none
      progress_details := []
      error_message := none
      generated_script := none
      generated_script_path := none
      test_results := none
      agent_results := [] }
  (save_jobs { st with mem := aset st.mem job_id job } persistOk, job)

/-- `update_job_status` (job_manager.py lines 249-283).  Returns `false`
and leaves the state untouched when the id is unknown (lines 259-260);
otherwise sets `status` and `updated_at`, optionally overwrites
`current_step` and `error_message`, merges `progress_details` key-wise
(line 270), and — only when the new status is terminal AND the job's mode
is `"training"` (line 275) — sets `completed_at` (the S3 metadata push of
line 279 is an external effect outside this model).  Finally `_save_jobs`
runs; its failure is swallowed, so the call returns `true` either way. -/
def update_job_status (st : MgrState) (job_id : String) (status : JobStatus)
    (current_step : Option String)
    (progress_details : Option (List (String × PVal)))
    (error_message : Option String) (now : Nat) (persistOk : Bool) :
    Bool × MgrState :=
  match alookup st.mem job_id with
  | none => (false, st)
  | some job =>
    let job2 := { job with status := status, updated_at := now }
    let job2 := match current_step with
      | some cs => { job2 with current_step := some cs }
      | none => job2
    let job2 := match progress_details with
      | some pd => { job2 with progress_details := dict_update job2.progress_details pd }
      | none => job2
    let job2 := match error_message with
      | some em => { job2 with error_message := some em }
      | none => job2
    let job2 :=
      if status.isTerminal = true ∧ job2.mode = "training" then
        { job2 with completed_at := some now }
      else job2
    (true, save_jobs { st with mem := aset st.mem job_id job2 } persistOk)

/-- `add_agent_result` (job_manager.py lines 285-313): appends one result
record to the job's `agent_results` and bumps `updated_at`; returns `false`
on an unknown id. -/
def add_agent_result (st : MgrState) (job_id : String) (agent_name : String)
    (success : Bool) (output error : Option String)
    (execution_time : Option Nat) (now : Nat) (persistOk : Bool) :
    Bool × MgrState :=
  match alookup st.mem job_id with
  | none => (false, st)
  | some job =>
    let result : AgentResult :=
      { agent_name := agent_name, success := success, output := output
        error := error, execution_time := execution_time }
    let job2 := { job with
      agent_results := job.agent_results ++ [result], updated_at := now }
    (true, save_jobs { st with mem := aset st.mem job_id job2 } persistOk)

/-- `set_generated_script` (job_manager.py lines 315-328). -/
def set_generated_script (st : MgrState) (job_id : String)
    (script_content : String) (script_path : Option String) (now : Nat)
    (persistOk : Bool) : Bool × MgrState :=
  match alookup st.mem job_id with
  | none => (false, st)
  | some job =>
    let job2 := { job with generated_script := some script_content }
    let job2 := match script_path with
      | some sp => { job2 with generated_script_path := some sp }
      | none => job2
    let job2 := { job2 with updated_at := now }
    (true, save_jobs { st with mem := aset st.mem job_id job2 } persistOk)

/-- `set_test_results` (job_manager.py lines 330-341). -/
def set_test_results (st : MgrState) (job_id : String)
    (test_results : List (String × PVal)) (now : Nat) (persistOk : Bool) :
    Bool × MgrState :=
  match alookup st.mem job_id with
  | none => (false, st)
  | some job =>
    let job2 := { job with
      test_results := some test_results, updated_at := now }
    (true, save_jobs { st with mem := aset st.mem job_id job2 } persistOk)

/-- The deletion test of `cleanup_completed_jobs` (job_manager.py lines
401-405): status terminal, `completed_at` present, and
`(now - completed_at).total_seconds() / 3600 > max_age_hours`.  Over the
reals, division by the positive constant 3600 makes the test equivalent to
`now - completed_at > max_age_hours * 3600`, stated here over `Int` (a
`completed_at` in the future gives a negative difference, which fails the
test exactly as in Python). -/
def cleanup_deletable (job : Job) (now : Int) (max_age_hours : Int) : Bool :=
  job.status.isTerminal &&
    match job.completed_at with
    | some t => decide ((now : Int) - (t : Int) > max_age_hours * 3600)
    | none => false

/-- `cleanup_completed_jobs` (job_manager.py lines 394-414): collects the
ids of deletable jobs, then deletes them from the in-memory dict and
returns how many were deleted.  Note the source never calls `_save_jobs`
here, so the durable copy is untouched. -/
def cleanup_completed_jobs (st : MgrState) (now : Int)
    (max_age_hours : Int) : MgrState × Nat :=
  let jobs_to_delete :=
    (st.mem.filter (fun kv => cleanup_deletable kv.2 now max_age_hours)).map
      (fun kv => kv.1)
  let mem2 := jobs_to_delete.foldl (fun m j => aerase m j) st.mem
  ({ st with mem := mem2 }, jobs_to_delete.length)

/-!
Reference-aware model of the store, for the snapshot claims.  In Python a
job is a dict whose `progress_details` and `agent_results` entries are
themselves heap objects; `get_job` (lines 243-247) returns `job.copy()`, a
SHALLOW copy: the top-level key/value pairs are copied, but the nested
objects are shared by reference.  Here the nested objects live in explicit
heaps addressed by `Nat` references, and a job record holds the
references. -/

/-- A job record at reference granularity: top-level scalar fields by
value, nested `progress_details` / `agent_results` as heap references. -/
structure JobRec : Type where
  status : JobStatus
  mode : String
  updated_at : Nat
  completed_at : Option Nat
  current_step : Option String
  error_message : Option String
  pd_ref : Nat
  ar_ref : Nat
deriving DecidableEq

/-- The reference-aware manager state: the jobs dict plus the heaps holding
the nested `progress_details` dicts and `agent_results` lists. -/
structure HeapState : Type where
  jobs : List (String × JobRec)
  pd_heap : List (Nat × List (String × PVal))
  ar_heap : List (Nat × List AgentResult)
deriving DecidableEq

/-- In-place mutation of one heap cell (Python mutating a shared object). -/
def heap_modify {α : Type} (h : List (Nat × α)) (r : Nat) (f : α → α) :
    List (Nat × α) :=
  match alookup h r with
  | some v => aset h r (f v)
  | none => h

/-- `get_job` (job_manager.py lines 243-247): `job.copy()` — the returned
snapshot carries the top-level field values and the SAME `pd_ref` /
`ar_ref` references as the stored record. -/
def get_job (st : HeapState) (job_id : String) : Option JobRec :=
  alookup st.jobs job_id

/-- `update_job_status` at reference granularity (job_manager.py lines
249-283).  `job["progress_details"].update(progress_details)` (line 270)
mutates the nested dict IN PLACE through the job's `pd_ref`; all other
writes rebind top-level keys of the stored record. -/
def update_job_status_ref (st : HeapState) (job_id : String)
    (status : JobStatus) (current_step : Option String)
    (progress_details : Option (List (String × PVal)))
    (error_message : Option String) (now : Nat) : Bool × HeapState :=
  match alookup st.jobs job_id with
  | none => (false, st)
  | some job =>
    let job2 := { job with status := status, updated_at := now }
    let job2 := match current_step with
      | some cs => { job2 with current_step := some cs }
      | none => job2
    let pd_heap2 := match progress_details with
      | some pd => heap_modify st.pd_heap job.pd_ref (fun d => dict_update d pd)
      | none => st.pd_heap
    let job2 := match error_message with
      | some em => { job2 with error_message := some em }
      | none => job2
    let job2 :=
      if status.isTerminal = true ∧ job2.mode = "training" then
        { job2 with completed_at := some now }
      else job2
    (true, { st with jobs := aset st.jobs job_id job2, pd_heap := pd_heap2 })

/-- `add_agent_result` at reference granularity (job_manager.py lines
285-313): `job["agent_results"].append(result)` mutates the shared list
through the job's `ar_ref`. -/
def add_agent_result_ref (st : HeapState) (job_id : String)
    (agent_name : String) (success : Bool) (output error : Option String)
    (execution_time : Option Nat) (now : Nat) : Bool × HeapState :=
  match alookup st.jobs job_id with
  | none => (false, st)
  | some job =>
    let result : AgentResult :=
      { agent_name := agent_name, success := success, output := output
        error := error, execution_time := execution_time }
    (true,
      { st with
        ar_heap := heap_modify st.ar_heap job.ar_ref (fun l => l ++ [result])
        jobs := aset st.jobs job_id { job with updated_at := now } })

/-!
Worker pool model, from `src/core/workflow_executor.py`.
-/

/-- Pool sizing from `WorkflowExecutorService.__init__` (line 30):
`min(32, max(4, multiprocessing.cpu_count() * 2))`. -/
def init_max_workers (cpu_count : Nat) : Nat :=
  min 32 (max 4 (cpu_count * 2))

/-- The pool counters: `self.max_workers`, whether `self.executor` was
initialised, the keys of the `self.active_jobs` dict (every submitted job
whose completion callback has not yet run), and `self.queue_size`. -/
structure PoolState : Type where
  max_workers : Nat
  initialized : Bool
  active_jobs : List String
  queue_size : Nat
deriving DecidableEq

/-- Fresh pool built by `__init__` + `_initialize_executor` (lines 28-56)
on a machine with `cpu_count` cores (successful initialisation path). -/
def init_pool (cpu_count : Nat) : PoolState :=
  { max_workers := init_max_workers cpu_count
    initialized := true
    active_jobs := []
    queue_size := 0 }

/-- Dict-key insertion for `self.active_jobs[job_id] = future`: a fresh key
is appended, an existing key only has its value replaced. -/
def key_insert (l : List String) (k : String) : List String :=
  if k ∈ l then l else l ++ [k]

/-- `submit_workflow` (workflow_executor.py lines 58-147): returns `false`
if the executor was never initialised (lines 85-87); otherwise records the
future under the job id and increments `queue_size` (lines 121-122), then
returns `true`.  The job-store status update of lines 93-102 is outside
this counter model. -/
def submit_workflow (s : PoolState) (job_id : String) : Bool × PoolState :=
  if s.initialized = false then (false, s)
  else
    (true,
      { s with
        active_jobs := key_insert s.active_jobs job_id
        queue_size := s.queue_size + 1 })

/-- The completion callback `_job_completed` (lines 125-135): drops the job
from `active_jobs` if still present and sets
`queue_size = max(0, queue_size - 1)` (`Nat` subtraction truncates at 0
exactly like the `max`). -/
def job_completed (s : PoolState) (job_id : String) : PoolState :=
  { s with
    active_jobs := s.active_jobs.erase job_id
    queue_size := s.queue_size - 1 }

/-- The dict returned by `get_queue_status` (lines 149-157);
`available_workers` is `max_workers - len(active_jobs)` and can go
negative in Python, hence `Int`. -/
structure QueueStatus : Type where
  max_workers : Nat
  active_jobs : Nat
  queue_size : Nat
  available_workers : Int
deriving DecidableEq

/-- `get_queue_status` (workflow_executor.py lines 149-157). -/
def get_queue_status (s : PoolState) : QueueStatus :=
  { max_workers := s.max_workers
    active_jobs := s.active_jobs.length
    queue_size := s.queue_size
    available_workers := (s.max_workers : Int) - (s.active_jobs.length : Int) }

/-- Sequential submissions (no completion callback interleaved). -/
def submit_many (s : PoolState) (ids : List String) : PoolState :=
  ids.foldl (fun st i => (submit_workflow st i).2) s

/-!
Training retry loop, from `CSVConversionWorkflow.execute_conversion_job`
(`src/core/workflow.py` lines 23-309).  The three agent phases are external
collaborators; each `_execute_*_phase` wrapper catches every exception and
returns a `{"success": False, "error": ...}` dict, so a cycle's agent
outcomes are pure inputs to the loop.  The loop's observable actions —
status/progress updates and `previous_attempts` entries — are recorded as
events. -/

/-- Outcome of the planner or coder phase as seen by the loop: the
`success` flag and optional `error` of the result dict. -/
structure PhaseResult : Type where
  success : Bool
  error : Option String
deriving DecidableEq

/-- One feedback entry `{issue_type, suggestion, error_details}`. -/
structure Feedback : Type where
  issue_type : String
  suggestion : String
  error_details : String
deriving DecidableEq

/-- Outcome of the tester phase: `success`, `test_passed`, optional
`error`, whether the dict has a `comparison_result` key and that key's
`feedback_for_coder` list, and the optional top-level `feedback_for_coder`
list (tester-proposed fixes, lines 231-233). -/
structure TesterResult : Type where
  success : Bool
  test_passed : Bool
  error : Option String
  has_comparison : Bool
  comparison_feedback : List Feedback
  extra_feedback : Option (List Feedback)
deriving DecidableEq

/-- The agent outcomes of one improvement cycle. -/
structure CycleInput : Type where
  planner : PhaseResult
  coder : PhaseResult
  tester : Option TesterResult
deriving DecidableEq

/-- An observable action of the loop: a `update_job_status` call carrying
the status and the `cycle` value of its `progress_details` when one is
present, or an append to `previous_attempts` carrying the attempt's
`cycle` field. -/
inductive Event : Type
  | statusUpdate (status : JobStatus) (cycle : Option Nat)
  | attempt (cycle : Nat)
deriving DecidableEq

/-- The cycle number an event records, when it records one. -/
def Event.cycleOf : Event → Option Nat
  | .statusUpdate _ c => c
  | .attempt c => c

/-- Feedback extraction from the tester outcome (workflow.py lines
216-251): a falsy tester result yields the `tester_failure` entry; a
failed execution yields the `execution_error` entry plus any non-empty
tester-proposed list (extending by an empty list is the identity); a
successful-but-unmatched run takes `feedback_for_coder` from
`comparison_result` when that key exists, else derives nothing. -/
def tester_feedback (t : Option TesterResult) : List Feedback :=
  match t with
  | none =>
      [{ issue_type := "tester_failure"
         suggestion := "Tester phase failed - check script syntax and dependencies"
         error_details := "Tester phase failed to execute" }]
  | some tr =>
    if tr.success = false then
      { issue_type := "execution_error"
        suggestion := "Fix script execution error: " ++
          tr.error.getD "Script execution failed"
        error_details := tr.error.getD "Script execution failed" } ::
        (tr.extra_feedback.getD [])
    else if tr.has_comparison = true then tr.comparison_feedback
    else []

/-- The loop's result: the recorded events, the final status, the
`success` flag, and the `cycles` count of the final result dict. -/
structure LoopResult : Type where
  events : List Event
  final_status : JobStatus
  success : Bool
  cycles : Nat
deriving DecidableEq

/-- The `while current_cycle < max_cycles` loop of
`execute_conversion_job` (workflow.py lines 77-281), as structural
recursion on the remaining budget `fuel = max_cycles - done` where `done`
cycles have already run; the running cycle is `c = done + 1` (line 78).
Each iteration: `PLANNING` update with `cycle = c` (lines 83-88); on
planner failure record the attempt, derive non-empty `planning_error`
feedback and either retry (a `PENDING` update with `cycle = c + 1`, lines
122-129) or fail (lines 130-134); same shape for the coder (lines
136-186); then `TESTING` update (lines 189-194) and the tester decision
(lines 200-281): completion when the tester succeeded and the test passed,
otherwise record the attempt, extract feedback, and retry ONLY when the
feedback list is non-empty and budget remains — with empty feedback the
job is failed at once (lines 253-281).  The `fuel = 0` case is the plain
loop exit, unreachable from `run_training_loop` below because every
iteration with budget remaining either breaks or consumes one unit of
fuel (Python would hit an unbound `final_status` there). -/
def execCycles (inputs : Nat → CycleInput) (max_cycles : Nat) :
    Nat → Nat → LoopResult
  | 0, done =>
      { events := [], final_status := .failed, success := false, cycles := done }
  | fuel + 1, done =>
    let c := done + 1
    let inp := inputs c
    let planEv := Event.statusUpdate .planning (some c)
    if inp.planner.success = false then
      if c < max_cycles then
        let rest := execCycles inputs max_cycles fuel c
        { rest with
          events := planEv :: Event.attempt c ::
            Event.statusUpdate .pending (some (c + 1)) :: rest.events }
      else
        { events := [planEv, Event.attempt c, Event.statusUpdate .failed none]
          final_status := .failed, success := false, cycles := c }
    else
      let codeEv := Event.statusUpdate .coding (some c)
      if inp.coder.success = false then
        if c < max_cycles then
          let rest := execCycles inputs max_cycles fuel c
          { rest with
            events := planEv :: codeEv :: Event.attempt c ::
              Event.statusUpdate .pending (some (c + 1)) :: rest.events }
        else
          { events :=
              [planEv, codeEv, Event.attempt c, Event.statusUpdate .failed none]
            final_status := .failed, success := false, cycles := c }
      else
        let testEv := Event.statusUpdate .testing (some c)
        let passed := match inp.tester with
          | some t => t.success && t.test_passed
          | none => false
        if passed = true then
          { events :=
              [planEv, codeEv, testEv, Event.statusUpdate .completed none]
            final_status := .completed, success := true, cycles := c }
        else
          let fb := tester_feedback inp.tester
          if fb ≠ [] ∧ c < max_cycles then
            let rest := execCycles inputs max_cycles fuel c
            { rest with
              events := planEv :: codeEv :: testEv :: Event.attempt c ::
                Event.statusUpdate .pending (some (c + 1)) :: rest.events }
          else
            { events := [planEv, codeEv, testEv, Event.attempt c,
                Event.statusUpdate .failed none]
              final_status := .failed, success := false, cycles := c }

/-- The training-mode run of `execute_conversion_job`: `max_cycles = 5`
(workflow.py line 67), starting at cycle 1 with the full budget. -/
def run_training_loop (inputs : Nat → CycleInput) : LoopResult :=
  execCycles inputs 5 5 0

/-!
Concrete instances used to evaluate the model on explicit inputs.
-/

/-- An inference-mode job as created by the inference route
(`src/api/routes.py` lines 335-341, `mode=OperationMode.INFERENCE`). -/
def exInferenceJob : Job :=
  { job_id := "j", status := .pending, input_file := "in.csv"
    expected_output_file := none, description := none
    general_instructions := none, column_instructions := none
    client_id := "c", mode := "inference", created_at := 0, updated_at := 0
    completed_at := none, current_step := none, progress_details := []
    error_message := none, generated_script := none
    generated_script_path := none, test_results := none, agent_results := [] }

/-- A training-mode job in its freshly created state. -/
def exTrainingJob : Job :=
  { exInferenceJob with job_id := "t", mode := "training" }

/-- A store holding the single inference job, memory and disk in sync. -/
def exInferenceState : MgrState :=
  { mem := [("j", exInferenceJob)], disk := [("j", exInferenceJob)] }

/-- A store holding the single training job, memory and disk in sync. -/
def exTrainingState : MgrState :=
  { mem := [("t", exTrainingJob)], disk := [("t", exTrainingJob)] }

/-- A tester outcome that ran successfully, did not pass, and whose
comparison result carries an empty `feedback_for_coder` list — no feedback
can be derived from it. -/
def exEmptyTester : TesterResult :=
  { success := true, test_passed := false, error := none
    has_comparison := true, comparison_feedback := []
    extra_feedback := none }

/-- Cycle inputs where every cycle's tester yields `exEmptyTester`. -/
def exEmptyFeedbackInputs : Nat → CycleInput := fun _ =>
  { planner := { success := true, error := none }
    coder := { success := true, error := none }
    tester := some exEmptyTester }

/-- Cycle inputs where every phase succeeds and the test passes. -/
def exAllOkInputs : Nat → CycleInput := fun _ =>
  { planner := { success := true, error := none }
    coder := { success := true, error := none }
    tester := some { success := true, test_passed := true, error := none
                     has_comparison := false, comparison_feedback := []
                     extra_feedback := none } }

/-- A stored job record at reference granularity, its nested
`progress_details` dict living at heap address 0. -/
def exJobRec : JobRec :=
  { status := .pending, mode := "training", updated_at := 0
    completed_at := none, current_step := none, error_message := none
    pd_ref := 0, ar_ref := 0 }

/-- A reference-aware store holding the single record `exJobRec`. -/
def exHeapState : HeapState :=
  { jobs := [("j", exJobRec)]
    pd_heap := [(0, [("phase", PVal.s "analysis")])]
    ar_heap := [(0, [])] }

/-!
Helper lemmas about the association-list operations.
-/

theorem alookup_aset_self {κ α : Type} [DecidableEq κ]
    (l : List (κ × α)) (k : κ) (v : α) :
    alookup (aset l k v) k = some v := by
  induction l with
  | nil => simp [aset, alookup]
  | cons kv rest ih =>
    obtain ⟨k1, w⟩ := kv
    by_cases h : k1 = k
    · simp [aset, h, alookup]
    · simp [aset, h, alookup, ih]

theorem aerase_cons_ne {κ α : Type} [DecidableEq κ]
    (k i : κ) (v : α) (l : List (κ × α)) (h : k ≠ i) :
    aerase ((k, v) :: l) i = (k, v) :: aerase l i := by
  simp [aerase, h]

theorem foldl_aerase_cons {κ α : Type} [DecidableEq κ] (ids : List κ) :
    ∀ (k : κ) (v : α) (l : List (κ × α)), k ∉ ids →
      List.foldl (fun m j => aerase m j) ((k, v) :: l) ids =
        (k, v) :: List.foldl (fun m j => aerase m j) l ids := by
  induction ids with
  | nil => intro k v l _; rfl
  | cons i ids ih =>
    intro k v l h
    have hk : k ≠ i := fun he => h (he ▸ List.mem_cons_self i ids)
    have h2 : k ∉ ids := fun he => h (List.mem_cons_of_mem i he)
    simp only [List.foldl_cons]
    rw [show aerase ((k, v) :: l) i = (k, v) :: aerase l i from
      aerase_cons_ne k i v l hk]
    exact ih k v (aerase l i) h2

theorem foldl_aerase_filter {κ α : Type} [DecidableEq κ]
    (p : κ × α → Bool) :
    ∀ (l : List (κ × α)), (l.map Prod.fst).Nodup →
      List.foldl (fun m j => aerase m j) l
          ((l.filter p).map (fun kv => kv.1)) =
        l.filter (fun kv => !p kv) := by
  intro l
  induction l with
  | nil => intro _; rfl
  | cons kv rest ih =>
    intro hnd
    obtain ⟨k, v⟩ := kv
    rw [List.map_cons] at hnd
    have hk : k ∉ rest.map Prod.fst := (List.nodup_cons.mp hnd).1
    have hnd2 : (rest.map Prod.fst).Nodup := (List.nodup_cons.mp hnd).2
    by_cases hp : p (k, v)
    · have hfil : ((k, v) :: rest).filter p = (k, v) :: rest.filter p := by
        simp [List.filter, hp]
      rw [hfil]
      simp only [List.map_cons, List.foldl_cons]
      rw [show aerase ((k, v) :: rest) k = rest by simp [aerase]]
      rw [ih hnd2]
      simp [List.filter, hp]
    · have hfil : ((k, v) :: rest).filter p = rest.filter p := by
        simp [List.filter, hp]
      rw [hfil]
      have hkid : k ∉ (rest.filter p).map (fun kv => kv.1) := by
        intro hmem
        apply hk
        simp only [List.mem_map] at hmem ⊢
        obtain ⟨kv2, hkv2, hfst⟩ := hmem
        exact ⟨kv2, List.mem_of_mem_filter hkv2, hfst⟩
      rw [foldl_aerase_cons _ k v rest hkid, ih hnd2]
      simp [List.filter, hp]

/-!
Claim theorems.
-/

/-- C2 (counterexample): `create_job` called with an id already present in
the store does not fail with a `DuplicateJob` error and does not leave the
existing record unchanged — it returns normally and the stored record for
that id becomes the freshly initialised one, which differs from the record
that was there before. -/
theorem create_job_duplicate_cex :
    alookup exInferenceState.mem "j" = some exInferenceJob ∧
    alookup (create_job exInferenceState "j" "other.csv" none none none none
        none "training" "g" 5 true).1.mem "j" =
      some (create_job exInferenceState "j" "other.csv" none none none none
        none "training" "g" 5 true).2 ∧
    (create_job exInferenceState "j" "other.csv" none none none none
        none "training" "g" 5 true).2 ≠ exInferenceJob := by
  decide

/-- C2 (amended): `create_job` performs no duplicate-id check at all: for
every store and every supplied id — present already or not — the call
returns normally and afterwards the store maps that id to the freshly
initialised record, silently replacing any existing record. -/
theorem create_job_overwrites (st : MgrState) (job_id input_file : String)
    (eof desc gi : Option String) (ci : Option (List (String × String)))
    (cid : Option String) (mode gen_cid : String) (now : Nat)
    (persistOk : Bool) :
    alookup (create_job st job_id input_file eof desc gi ci cid mode gen_cid
        now persistOk).1.mem job_id =
      some (create_job st job_id input_file eof desc gi ci cid mode gen_cid
        now persistOk).2 := by
  unfold create_job save_jobs
  cases persistOk <;> simp [alookup_aset_self]

/-- C5: `update_job_status` on a job id that is not in the store returns
`false` without raising (the model is a total function) and leaves the
entire manager state — in-memory dict and durable copy — exactly as it
was. -/
theorem update_unknown_id_noop (st : MgrState) (job_id : String)
    (status : JobStatus) (cs : Option String)
    (pd : Option (List (String × PVal))) (em : Option String) (now : Nat)
    (persistOk : Bool) (h : alookup st.mem job_id = none) :
    update_job_status st job_id status cs pd em now persistOk = (false, st) := by
  unfold update_job_status
  rw [h]

/-- C5 witness: the concrete empty store, updating the unknown id
`"ghost"`. -/
theorem update_unknown_id_noop_witness :
    alookup (MgrState.mk [] []).mem "ghost" = none ∧
    update_job_status (MgrState.mk [] []) "ghost" JobStatus.completed none
        none none 3 true = (false, MgrState.mk [] []) :=
  ⟨rfl, update_unknown_id_noop _ _ _ _ _ _ _ _ rfl⟩

/-- C8: the worker-pool size of `WorkflowExecutorService.__init__` equals
`clamp(2 × coreCount, 4, 32) = min(32, max(4, 2n))` and therefore always
lies between 4 and 32 inclusive, for every core count `n`. -/
theorem pool_size_clamped (n : Nat) :
    init_max_workers n = min 32 (max 4 (2 * n)) ∧
    4 ≤ init_max_workers n ∧ init_max_workers n ≤ 32 := by
  unfold init_max_workers
  refine ⟨by rw [Nat.mul_comm], ?_, ?_⟩ <;> omega

/-- C1 (counterexample): `update_job_status` transitioning an
INFERENCE-mode job into the terminal status COMPLETED reports success and
stores the terminal status, yet leaves `completed_at` unset — the
mode guard on line 275 of job_manager.py restricts the `completed_at`
write to training jobs, so the transition is not "regardless of its
mode". -/
theorem inference_completed_at_unset_cex :
    (update_job_status exInferenceState "j" JobStatus.completed none none
      none 7 true).1 = true ∧
    (alookup (update_job_status exInferenceState "j" JobStatus.completed none
      none none 7 true).2.mem "j").map Job.status = some JobStatus.completed ∧
    (alookup (update_job_status exInferenceState "j" JobStatus.completed none
      none none 7 true).2.mem "j").map Job.completed_at = some none := by
  decide

/-- C1 (amended): whenever `update_job_status` transitions a job into a
terminal status, `completed_at` is set to the transition time if and only
if the job's mode is `"training"`; for a non-terminal target status (and
for non-training jobs) the update never assigns `completed_at`, which
keeps its previous value. -/
theorem update_status_completed_at (st : MgrState) (job_id : String)
    (status : JobStatus) (cs : Option String)
    (pd : Option (List (String × PVal))) (em : Option String) (now : Nat)
    (persistOk : Bool) (job : Job) (h : alookup st.mem job_id = some job) :
    (update_job_status st job_id status cs pd em now persistOk).1 = true ∧
    ∃ job2,
      alookup (update_job_status st job_id status cs pd em now
        persistOk).2.mem job_id = some job2 ∧
      job2.status = status ∧
      job2.completed_at =
        (if status.isTerminal = true ∧ job.mode = "training" then some now
         else job.completed_at) := by
  unfold update_job_status save_jobs
  rw [h]
  cases cs <;> cases pd <;> cases em <;> cases persistOk <;>
    by_cases ht : status.isTerminal = true ∧ job.mode = "training" <;>
    simp [ht, alookup_aset_self]

/-- C1 witness: the concrete training job transitioned to COMPLETED at
time 7 gets `completed_at = some 7`. -/
theorem update_status_completed_at_witness :
    alookup exTrainingState.mem "t" = some exTrainingJob ∧
    ((update_job_status exTrainingState "t" JobStatus.completed none none
      none 7 true).1 = true ∧
    ∃ job2,
      alookup (update_job_status exTrainingState "t" JobStatus.completed none
        none none 7 true).2.mem "t" = some job2 ∧
      job2.status = JobStatus.completed ∧
      job2.completed_at =
        (if JobStatus.completed.isTerminal = true ∧
            exTrainingJob.mode = "training" then some 7
         else exTrainingJob.completed_at)) :=
  ⟨by decide, update_status_completed_at exTrainingState "t"
    JobStatus.completed none none none 7 true exTrainingJob (by decide)⟩

/-- C3 (counterexample): with the disk write failing, `update_job_status`
still returns `true` while the transition only landed in memory — the
durable copy still holds the previous status, so a return of `true` does
not imply the mutation durably landed. -/
theorem persist_failure_swallowed_cex :
    (update_job_status exTrainingState "t" JobStatus.planning none none
      none 3 false).1 = true ∧
    (alookup (update_job_status exTrainingState "t" JobStatus.planning none
      none none 3 false).2.mem "t").map Job.status = some JobStatus.planning ∧
    (alookup (update_job_status exTrainingState "t" JobStatus.planning none
      none none 3 false).2.disk "t").map Job.status = some JobStatus.pending ∧
    (update_job_status exTrainingState "t" JobStatus.planning none none
      none 3 false).2.mem ≠
      (update_job_status exTrainingState "t" JobStatus.planning none none
        none 3 false).2.disk := by
  decide

/-- C3 (amended): every store mutation (`update_job_status`,
`add_agent_result`, `set_generated_script`, `set_test_results`) applies
its change in memory and attempts `_save_jobs` before returning; when the
write succeeds the whole store is durably committed before the call
returns, but a failed write is swallowed and the call still reports
`true`. -/
theorem mutations_saved_when_persist_ok (st : MgrState) (job_id : String)
    (status : JobStatus) (cs : Option String)
    (pd : Option (List (String × PVal))) (em : Option String)
    (agent_name : String) (success : Bool) (output error : Option String)
    (et : Option Nat) (script : String) (spath : Option String)
    (tr : List (String × PVal)) (now : Nat)
    (h : (alookup st.mem job_id).isSome = true) :
    ((update_job_status st job_id status cs pd em now true).1 = true ∧
      (update_job_status st job_id status cs pd em now true).2.disk =
        (update_job_status st job_id status cs pd em now true).2.mem) ∧
    ((add_agent_result st job_id agent_name success output error et now
        true).1 = true ∧
      (add_agent_result st job_id agent_name success output error et now
        true).2.disk =
        (add_agent_result st job_id agent_name success output error et now
          true).2.mem) ∧
    ((set_generated_script st job_id script spath now true).1 = true ∧
      (set_generated_script st job_id script spath now true).2.disk =
        (set_generated_script st job_id script spath now true).2.mem) ∧
    ((set_test_results st job_id tr now true).1 = true ∧
      (set_test_results st job_id tr now true).2.disk =
        (set_test_results st job_id tr now true).2.mem) := by
  obtain ⟨job, hj⟩ := Option.isSome_iff_exists.mp h
  unfold update_job_status add_agent_result set_generated_script
    set_test_results save_jobs
  rw [hj]
  cases cs <;> cases pd <;> cases em <;> cases spath <;> simp

/-- C3 witness: the concrete training store with a succeeding disk
write. -/
theorem mutations_saved_when_persist_ok_witness :
    (alookup exTrainingState.mem "t").isSome = true ∧
    ((update_job_status exTrainingState "t" JobStatus.planning none none
      none 3 true).1 = true ∧
      (update_job_status exTrainingState "t" JobStatus.planning none none
        none 3 true).2.disk =
        (update_job_status exTrainingState "t" JobStatus.planning none none
          none 3 true).2.mem) ∧
    ((add_agent_result exTrainingState "t" "Planner" true none none none 3
        true).1 = true ∧
      (add_agent_result exTrainingState "t" "Planner" true none none none 3
        true).2.disk =
        (add_agent_result exTrainingState "t" "Planner" true none none none
          3 true).2.mem) ∧
    ((set_generated_script exTrainingState "t" "print(1)" none 3 true).1 =
        true ∧
      (set_generated_script exTrainingState "t" "print(1)" none 3
        true).2.disk =
        (set_generated_script exTrainingState "t" "print(1)" none 3
          true).2.mem) ∧
    ((set_test_results exTrainingState "t" [] 3 true).1 = true ∧
      (set_test_results exTrainingState "t" [] 3 true).2.disk =
        (set_test_results exTrainingState "t" [] 3 true).2.mem) :=
  ⟨by decide, mutations_saved_when_persist_ok exTrainingState "t"
    JobStatus.planning none none none "Planner" true none none none
    "print(1)" none [] 3 (by decide)⟩

/-- C7 (counterexample): on a 2-core machine the pool size is 4, yet after
five submissions with no completions the status reports
`active_jobs = 5 > 4 = max_workers`, and `queue_size = 5` — one per
submission, not one per excess submission (which would give 1). -/
theorem pool_counters_cex :
    (get_queue_status (submit_many (init_pool 2)
      ["a", "b", "c", "d", "e"])).max_workers = 4 ∧
    (get_queue_status (submit_many (init_pool 2)
      ["a", "b", "c", "d", "e"])).active_jobs = 5 ∧
    (get_queue_status (submit_many (init_pool 2)
      ["a", "b", "c", "d", "e"])).queue_size = 5 ∧
    (get_queue_status (submit_many (init_pool 2)
      ["a", "b", "c", "d", "e"])).active_jobs >
      (get_queue_status (submit_many (init_pool 2)
        ["a", "b", "c", "d", "e"])).max_workers := by
  decide

/-- C7 (amended): each accepted submission of a new job id increments the
reported `queue_size` by exactly one and grows the reported `active_jobs`
count by exactly one; the counters track all submitted-but-unfinished
jobs, so neither is bounded by `max_workers`. -/
theorem submit_increments_counters (s : PoolState) (jid : String)
    (hinit : s.initialized = true) (hfresh : jid ∉ s.active_jobs) :
    (submit_workflow s jid).1 = true ∧
    (get_queue_status (submit_workflow s jid).2).queue_size =
      (get_queue_status s).queue_size + 1 ∧
    (get_queue_status (submit_workflow s jid).2).active_jobs =
      (get_queue_status s).active_jobs + 1 := by
  unfold submit_workflow get_queue_status key_insert
  simp [hinit, hfresh]

/-- C7 witness: submitting the fresh id `"a"` to a fresh 2-core pool. -/
theorem submit_increments_counters_witness :
    ((init_pool 2).initialized = true ∧ "a" ∉ (init_pool 2).active_jobs) ∧
    ((submit_workflow (init_pool 2) "a").1 = true ∧
     (get_queue_status (submit_workflow (init_pool 2) "a").2).queue_size =
       (get_queue_status (init_pool 2)).queue_size + 1 ∧
     (get_queue_status (submit_workflow (init_pool 2) "a").2).active_jobs =
       (get_queue_status (init_pool 2)).active_jobs + 1) :=
  ⟨⟨by decide, by decide⟩,
    submit_increments_counters (init_pool 2) "a" (by decide) (by decide)⟩

/-- C9 (counterexample): a snapshot returned by `get_job` is a shallow
copy — after a subsequent `update_job_status` merging `{"cycle": 1}` into
the same job's progress, the nested `progress_details` object the snapshot
still references has changed from its value at the time of the read. -/
theorem snapshot_mutated_cex :
    get_job exHeapState "j" = some exJobRec ∧
    alookup exHeapState.pd_heap exJobRec.pd_ref =
      some [("phase", PVal.s "analysis")] ∧
    alookup (update_job_status_ref exHeapState "j" JobStatus.planning none
        (some [("cycle", PVal.n 1)]) none 1).2.pd_heap exJobRec.pd_ref =
      some [("phase", PVal.s "analysis"), ("cycle", PVal.n 1)] ∧
    some [("phase", PVal.s "analysis"), ("cycle", PVal.n 1)] ≠
      (some [("phase", PVal.s "analysis")] : Option (List (String × PVal))) := by
  decide

/-- C9 (amended): `get_job` returns a shallow copy: a later
`update_job_status` on the same id replaces the stored record's top-level
fields (the snapshot's own field values are fixed at read time), but the
nested `progress_details` dict is shared by reference between snapshot and
store, so the update's key-wise merge is visible through the snapshot's
reference. -/
theorem get_job_shallow_copy (st : HeapState) (job_id : String)
    (r : JobRec) (d pd : List (String × PVal)) (status : JobStatus)
    (now : Nat) (hr : get_job st job_id = some r)
    (hd : alookup st.pd_heap r.pd_ref = some d) :
    ∃ r2,
      alookup (update_job_status_ref st job_id status none (some pd) none
        now).2.jobs job_id = some r2 ∧
      r2.pd_ref = r.pd_ref ∧ r2.status = status ∧
      alookup (update_job_status_ref st job_id status none (some pd) none
        now).2.pd_heap r.pd_ref = some (dict_update d pd) := by
  unfold get_job at hr
  unfold update_job_status_ref heap_modify
  rw [hr]
  dsimp only
  rw [hd]
  by_cases ht : status.isTerminal = true ∧ r.mode = "training" <;>
    simp [ht, alookup_aset_self]

/-- C9 witness: the concrete one-job reference store. -/
theorem get_job_shallow_copy_witness :
    (get_job exHeapState "j" = some exJobRec ∧
     alookup exHeapState.pd_heap exJobRec.pd_ref =
       some [("phase", PVal.s "analysis")]) ∧
    ∃ r2,
      alookup (update_job_status_ref exHeapState "j" JobStatus.planning none
        (some [("cycle", PVal.n 1)]) none 1).2.jobs "j" = some r2 ∧
      r2.pd_ref = exJobRec.pd_ref ∧ r2.status = JobStatus.planning ∧
      alookup (update_job_status_ref exHeapState "j" JobStatus.planning none
        (some [("cycle", PVal.n 1)]) none 1).2.pd_heap exJobRec.pd_ref =
        some (dict_update [("phase", PVal.s "analysis")]
          [("cycle", PVal.n 1)]) :=
  ⟨⟨by decide, by decide⟩,
    get_job_shallow_copy exHeapState "j" exJobRec
      [("phase", PVal.s "analysis")] [("cycle", PVal.n 1)]
      JobStatus.planning 1 (by decide) (by decide)⟩

/-- C4 (counterexample): with the tester running successfully every cycle,
the test not passing, and no derivable feedback (empty comparison
feedback), the job does NOT advance to the next cycle — the run ends
FAILED after cycle 1, although the cycle budget (5) was not exhausted. -/
theorem advance_on_empty_feedback_cex :
    (run_training_loop exEmptyFeedbackInputs).final_status =
      JobStatus.failed ∧
    (run_training_loop exEmptyFeedbackInputs).cycles = 1 ∧
    (run_training_loop exEmptyFeedbackInputs).cycles < 5 := by
  decide

/-- C4 (amended): when a cycle's planner and coder succeed and the Tester
result yields no derivable feedback (tester ran, test not passed, empty
derived feedback list), the loop marks the job FAILED at that very cycle —
it never advances on empty feedback, regardless of how much cycle budget
remains. -/
theorem empty_feedback_fails_at_once (inputs : Nat → CycleInput)
    (max_cycles fuel done : Nat) (t : TesterResult)
    (hp : (inputs (done + 1)).planner.success = true)
    (hc : (inputs (done + 1)).coder.success = true)
    (ht : (inputs (done + 1)).tester = some t)
    (hts : t.success = true) (htp : t.test_passed = false)
    (hfb : tester_feedback (some t) = []) :
    (execCycles inputs max_cycles (fuel + 1) done).final_status =
      JobStatus.failed ∧
    (execCycles inputs max_cycles (fuel + 1) done).cycles = done + 1 := by
  unfold execCycles
  simp [hp, hc, ht, hts, htp, hfb]

/-- C4 witness: the concrete empty-feedback inputs at cycle 1 of a
5-cycle budget. -/
theorem empty_feedback_fails_at_once_witness :
    ((exEmptyFeedbackInputs 1).planner.success = true ∧
     (exEmptyFeedbackInputs 1).coder.success = true ∧
     (exEmptyFeedbackInputs 1).tester = some exEmptyTester ∧
     exEmptyTester.success = true ∧ exEmptyTester.test_passed = false ∧
     tester_feedback (some exEmptyTester) = []) ∧
    ((execCycles exEmptyFeedbackInputs 5 5 0).final_status =
      JobStatus.failed ∧
     (execCycles exEmptyFeedbackInputs 5 5 0).cycles = 1) :=
  ⟨⟨by decide, by decide, by decide, by decide, by decide, by decide⟩,
    empty_feedback_fails_at_once exEmptyFeedbackInputs 5 4 0 exEmptyTester
      (by decide) (by decide) (by decide) (by decide) (by decide)
      (by decide)⟩

/-- Bound lemma for the retry loop: starting after `done` finished cycles
with `fuel = max_cycles - done` budget left, every cycle number recorded
in an event lies strictly above `done` and at most `max_cycles`, and the
final `cycles` count is at most `max_cycles`. -/
theorem execCycles_cycle_bounds (inputs : Nat → CycleInput) (maxC : Nat) :
    ∀ fuel done, fuel + done ≤ maxC →
      ((∀ e ∈ (execCycles inputs maxC fuel done).events, ∀ n,
          e.cycleOf = some n → done < n ∧ n ≤ maxC) ∧
        (execCycles inputs maxC fuel done).cycles ≤ maxC) := by
  intro fuel
  induction fuel with
  | zero =>
    intro done h
    constructor
    · intro e he
      simp [execCycles] at he
    · show done ≤ maxC
      omega
  | succ f ih =>
    intro done h
    unfold execCycles
    dsimp only
    by_cases hps : (inputs (done + 1)).planner.success = false
    · rw [if_pos hps]
      by_cases hlt : done + 1 < maxC
      · rw [if_pos hlt]
        dsimp only
        constructor
        · intro e he n hn
          simp only [List.mem_cons] at he
          rcases he with rfl | rfl | rfl | he
          · simp only [Event.cycleOf, Option.some.injEq] at hn
            omega
          · simp only [Event.cycleOf, Option.some.injEq] at hn
            omega
          · simp only [Event.cycleOf, Option.some.injEq] at hn
            omega
          · have h2 := (ih (done + 1) (by omega)).1 e he n hn
            omega
        · exact (ih (done + 1) (by omega)).2
      · rw [if_neg hlt]
        constructor
        · intro e he n hn
          simp only [List.mem_cons] at he
          rcases he with rfl | rfl | rfl | he
          · simp only [Event.cycleOf, Option.some.injEq] at hn
            omega
          · simp only [Event.cycleOf, Option.some.injEq] at hn
            omega
          · simp [Event.cycleOf] at hn
          · simp at he
        · show done + 1 ≤ maxC
          omega
    · rw [if_neg hps]
      by_cases hcs : (inputs (done + 1)).coder.success = false
      · rw [if_pos hcs]
        by_cases hlt : done + 1 < maxC
        · rw [if_pos hlt]
          dsimp only
          constructor
          · intro e he n hn
            simp only [List.mem_cons] at he
            rcases he with rfl | rfl | rfl | rfl | he
            · simp only [Event.cycleOf, Option.some.injEq] at hn
              omega
            · simp only [Event.cycleOf, Option.some.injEq] at hn
              omega
            · simp only [Event.cycleOf, Option.some.injEq] at hn
              omega
            · simp only [Event.cycleOf, Option.some.injEq] at hn
              omega
            · have h2 := (ih (done + 1) (by omega)).1 e he n hn
              omega
          · exact (ih (done + 1) (by omega)).2
        · rw [if_neg hlt]
          constructor
          · intro e he n hn
            simp only [List.mem_cons] at he
            rcases he with rfl | rfl | rfl | rfl | he
            · simp only [Event.cycleOf, Option.some.injEq] at hn
              omega
            · simp only [Event.cycleOf, Option.some.injEq] at hn
              omega
            · simp only [Event.cycleOf, Option.some.injEq] at hn
              omega
            · simp [Event.cycleOf] at hn
            · simp at he
          · show done + 1 ≤ maxC
            omega
      · rw [if_neg hcs]
        by_cases hpass :
            (match (inputs (done + 1)).tester with
              | some t => t.success && t.test_passed
              | none => false) = true
        · rw [if_pos hpass]
          constructor
          · intro e he n hn
            simp only [List.mem_cons] at he
            rcases he with rfl | rfl | rfl | rfl | he
            · simp only [Event.cycleOf, Option.some.injEq] at hn
              omega
            · simp only [Event.cycleOf, Option.some.injEq] at hn
              omega
            · simp only [Event.cycleOf, Option.some.injEq] at hn
              omega
            · simp [Event.cycleOf] at hn
            · simp at he
          · show done + 1 ≤ maxC
            omega
        · rw [if_neg hpass]
          by_cases hfb :
              tester_feedback (inputs (done + 1)).tester ≠ [] ∧
                done + 1 < maxC
          · rw [if_pos hfb]
            dsimp only
            constructor
            · intro e he n hn
              simp only [List.mem_cons] at he
              rcases he with rfl | rfl | rfl | rfl | rfl | he
              · simp only [Event.cycleOf, Option.some.injEq] at hn
                omega
              · simp only [Event.cycleOf, Option.some.injEq] at hn
                omega
              · simp only [Event.cycleOf, Option.some.injEq] at hn
                omega
              · simp only [Event.cycleOf, Option.some.injEq] at hn
                omega
              · simp only [Event.cycleOf, Option.some.injEq] at hn
                omega
              · have h2 := (ih (done + 1) (by omega)).1 e he n hn
                omega
            · exact (ih (done + 1) (by omega)).2
          · rw [if_neg hfb]
            constructor
            · intro e he n hn
              simp only [List.mem_cons] at he
              rcases he with rfl | rfl | rfl | rfl | rfl | he
              · simp only [Event.cycleOf, Option.some.injEq] at hn
                omega
              · simp only [Event.cycleOf, Option.some.injEq] at hn
                omega
              · simp only [Event.cycleOf, Option.some.injEq] at hn
                omega
              · simp only [Event.cycleOf, Option.some.injEq] at hn
                omega
              · simp [Event.cycleOf] at hn
              · simp at he
            · show done + 1 ≤ maxC
              omega

/-- C6: in a training run the cycle counter is 1-based and capped at
`max_cycles = 5`: every cycle number recorded in an attempt or progress
update lies between 1 and 5, and the final cycle count is at most 5. -/
theorem training_cycle_bounds (inputs : Nat → CycleInput) :
    (∀ e ∈ (run_training_loop inputs).events, ∀ n,
      Event.cycleOf e = some n → 1 ≤ n ∧ n ≤ 5) ∧
    (run_training_loop inputs).cycles ≤ 5 := by
  unfold run_training_loop
  have h := execCycles_cycle_bounds inputs 5 5 0 (by omega)
  refine ⟨?_, h.2⟩
  intro e he n hn
  have h2 := h.1 e he n hn
  omega

/-- C6 witness: the all-successful run records cycle 1 in its planning
update and its bounds hold. -/
theorem training_cycle_bounds_witness :
    Event.statusUpdate JobStatus.planning (some 1) ∈
      (run_training_loop exAllOkInputs).events ∧ (1 ≤ 1 ∧ 1 ≤ 5) :=
  ⟨by decide, (training_cycle_bounds exAllOkInputs).1
    (Event.statusUpdate JobStatus.planning (some 1)) (by decide) 1 rfl⟩

/-- C10: the retention sweep keeps a stored job if and only if it is NOT
deletable, and deletability means exactly: terminal status, `completed_at`
present, and strictly older than the age threshold.  In particular a
terminal job whose `completed_at` was never set, and every non-terminal
job, survive the sweep. -/
theorem cleanup_retains_iff (st : MgrState) (now mah : Int)
    (kv : String × Job) (hnd : (st.mem.map Prod.fst).Nodup)
    (hmem : kv ∈ st.mem) :
    (kv ∈ (cleanup_completed_jobs st now mah).1.mem ↔
      cleanup_deletable kv.2 now mah = false) ∧
    (cleanup_deletable kv.2 now mah = true ↔
      kv.2.status.isTerminal = true ∧
        ∃ t, kv.2.completed_at = some t ∧ now - (t : Int) > mah * 3600) := by
  constructor
  · unfold cleanup_completed_jobs
    dsimp only
    rw [foldl_aerase_filter (fun kv => cleanup_deletable kv.2 now mah)
      st.mem hnd]
    constructor
    · intro hin
      have h2 := List.mem_filter.mp hin
      simpa using h2.2
    · intro hdel
      exact List.mem_filter.mpr ⟨hmem, by simp [hdel]⟩
  · unfold cleanup_deletable
    cases hca : kv.2.completed_at with
    | none => simp [hca]
    | some t => simp [hca]

/-- C10 witness: a fresh PENDING training job is retained by the sweep. -/
theorem cleanup_retains_iff_witness :
    ((exTrainingState.mem.map Prod.fst).Nodup ∧
      ("t", exTrainingJob) ∈ exTrainingState.mem) ∧
    ("t", exTrainingJob) ∈
      (cleanup_completed_jobs exTrainingState 1000000 24).1.mem :=
  ⟨⟨by decide, by decide⟩,
    (cleanup_retains_iff exTrainingState 1000000 24 ("t", exTrainingJob)
      (by decide) (by decide)).1.mpr (by decide)⟩

end S3Api
